import Mathlib

/-!
Verification of the draft-lifecycle and generation-orchestration core of the
`social-plugin` repository, shallowly embedded in Lean 4.

Embedding conventions:
* Python strings are Lean `String`; case-insensitive substring tests work on
  `List Char` with `Char.toLower` (the inputs of interest are ASCII).
* SQLite rows of the `drafts` table are the structure `DraftRow`; the whole
  table is a `List DraftRow`.  `UPDATE … WHERE id = ?` is a `List.map` that
  patches the matching rows.  JSON (de)serialisation of the `hashtags` column
  is abstracted to an `Option (List String)` column value, reflecting that
  `json.loads (json.dumps l) = l` for the external `json` library.
* `datetime.utcnow().isoformat()` results are opaque strings passed in as a
  `now` parameter; SQLite timestamp columns hold `Option String`.
* Monetary amounts (Python floats holding per-million-token prices) are `Rat`.
* The LLM provider (`llm_client.generate`) is an oracle
  `String → String → GenerationResult`: each distinct prompt pair yields one
  fixed result, matching the sequential, deterministic use in the orchestrator.
* The external `better_profanity` library behind `ContentSafety` is an
  uninterpreted predicate field `containsProfanity`.
* Python functions that raise on bad data (enum parse in `Draft.from_db_row`)
  return `Option` instead.
-/

namespace SocialPlugin

/-! ## drafts/models.py -/

/-- `Platform` enum from `drafts/models.py`. -/
inductive Platform where
  | twitter
  | linkedin
deriving DecidableEq, Repr

/-- `Platform.value` — the string payload of the enum member. -/
def Platform.value : Platform → String
  | .twitter => "twitter"
  | .linkedin => "linkedin"

/-- `Platform(s)` — enum construction from a string; `none` models `ValueError`. -/
def Platform.ofValue : String → Option Platform
  | "twitter" => some .twitter
  | "linkedin" => some .linkedin
  | _ => none

/-- `DraftStatus` enum from `drafts/models.py`. -/
inductive DraftStatus where
  | pending
  | approved
  | rejected
  | posted
  | failed
  | expired
deriving DecidableEq, Repr

/-- `DraftStatus.value` — the string payload of the enum member. -/
def DraftStatus.value : DraftStatus → String
  | .pending => "pending"
  | .approved => "approved"
  | .rejected => "rejected"
  | .posted => "posted"
  | .failed => "failed"
  | .expired => "expired"

/-- `DraftStatus(s)` — enum construction from a string; `none` models `ValueError`. -/
def DraftStatus.ofValue : String → Option DraftStatus
  | "pending" => some .pending
  | "approved" => some .approved
  | "rejected" => some .rejected
  | "posted" => some .posted
  | "failed" => some .failed
  | "expired" => some .expired
  | _ => none

/-- The `Draft` dataclass from `drafts/models.py`. -/
structure Draft where
  id : String
  platform : Platform := Platform.twitter
  content : String := ""
  hashtags : List String := []
  tone : String := ""
  source_reference : String := ""
  image_path : Option String := none
  status : DraftStatus := DraftStatus.pending
  created_at : Option String := none
  reviewed_at : Option String := none
  posted_at : Option String := none
  post_url : Option String := none
  reviewer_notes : Option String := none
  error_message : Option String := none
  generation_model : Option String := none
  generation_tokens : Option Int := none
  generation_cost : Option Rat := none
deriving DecidableEq, Repr

/-- One row of the SQLite `drafts` table (schema in `db.py`).  The `hashtags`
column stores a JSON string in SQLite; the JSON layer is abstracted so the
column holds the decoded `Option (List String)` directly. -/
structure DraftRow where
  id : String
  platform : String
  content : String
  hashtags : Option (List String) := none
  tone : Option String := none
  source_reference : Option String := none
  image_path : Option String := none
  status : String
  created_at : Option String := none
  reviewed_at : Option String := none
  posted_at : Option String := none
  post_url : Option String := none
  reviewer_notes : Option String := none
  error_message : Option String := none
  generation_model : Option String := none
  generation_tokens : Option Int := none
  generation_cost : Option Rat := none
deriving DecidableEq, Repr

/-- `Draft.to_db_dict` from `drafts/models.py`.  Keys absent from the Python
dict (timestamps, review fields) appear as `none`, matching `dict.get`
returning `None` for them. -/
def Draft.toDbDict (d : Draft) : DraftRow :=
  { id := d.id
    platform := d.platform.value
    content := d.content
    hashtags := if d.hashtags.isEmpty then none else some d.hashtags
    tone := if d.tone = "" then none else some d.tone
    source_reference := if d.source_reference = "" then none else some d.source_reference
    image_path := d.image_path
    status := d.status.value
    generation_model := d.generation_model
    generation_tokens := d.generation_tokens
    generation_cost := d.generation_cost }

/-- `Draft.from_db_row` from `drafts/models.py`.  A failing enum construction
(Python `ValueError`) is `none`. -/
def Draft.fromDbRow (r : DraftRow) : Option Draft :=
  match Platform.ofValue r.platform, DraftStatus.ofValue r.status with
  | some p, some s =>
      some { id := r.id
             platform := p
             content := r.content
             hashtags := r.hashtags.getD []
             tone := (r.tone.getD "")
             source_reference := (r.source_reference.getD "")
             image_path := r.image_path
             status := s
             created_at := r.created_at
             reviewed_at := r.reviewed_at
             posted_at := r.posted_at
             post_url := r.post_url
             reviewer_notes := r.reviewer_notes
             error_message := r.error_message
             generation_model := r.generation_model
             generation_tokens := r.generation_tokens
             generation_cost := r.generation_cost }
  | _, _ => none

/-- Lower-case a string character-wise (Python `str.lower` on ASCII input). -/
def lowerChars (s : String) : List Char :=
  s.data.map Char.toLower

/-- Contiguous-substring test on character lists (Python `needle in hay`). -/
def charsContain (hay needle : List Char) : Bool :=
  match hay with
  | [] => needle.isEmpty
  | _ :: t => needle.isPrefixOf hay || charsContain t needle

/-- `Draft.display_content` property from `drafts/models.py`. -/
def Draft.displayContent (d : Draft) : String :=
  if !d.hashtags.isEmpty then
    let content_lower := lowerChars d.content
    let missing_tags := d.hashtags.filter (fun t => !charsContain content_lower (lowerChars t))
    if !missing_tags.isEmpty then
      d.content ++ " " ++ " ".intercalate missing_tags
    else d.content
  else d.content

/-! ## db.py — the drafts table and its generic update

The `drafts` table is a `List DraftRow`; `Database.update "drafts" data "id = ?"
(id,)` applies the column assignments in `data` to every row whose `id`
matches.  Each call site's `data` dict is embedded as an explicit row patch. -/

/-- `Database.update` restricted to the `drafts` table with the `id = ?` where
clause used by `DraftManager`: patch every matching row. -/
def dbUpdateById (patch : DraftRow → DraftRow) (id : String) (rows : List DraftRow) :
    List DraftRow :=
  rows.map (fun r => if r.id = id then patch r else r)

/-- `Database.get_draft`: `SELECT * FROM drafts WHERE id = ?` (first match). -/
def findRow (rows : List DraftRow) (id : String) : Option DraftRow :=
  rows.find? (fun r => r.id = id)

/-! ## drafts/draft_manager.py — DraftManager

Each operation takes the table (`rows`) and returns its Python return value
together with the table after the call.  Wall-clock timestamps
(`datetime.utcnow().isoformat()`) enter as the opaque `now` argument. -/

/-- `DraftManager.get`: fetch the row, decode with `Draft.from_db_row`. -/
def getDraft (rows : List DraftRow) (id : String) : Option Draft :=
  (findRow rows id).bind Draft.fromDbRow

/-- Python truthiness of an `str | None` value (`if notes:`). -/
def optTruthy : Option String → Bool
  | some s => !s.isEmpty
  | none => false

/-- `DraftManager.create`: insert the draft's `to_db_dict` row. -/
def createDraft (d : Draft) (rows : List DraftRow) : Draft × List DraftRow :=
  (d, rows ++ [d.toDbDict])

/-- The column assignments of `DraftManager.approve` (`status='approved'`,
`reviewed_at=now`, plus `reviewer_notes` when `notes` is truthy). -/
def approvePatch (now : String) (notes : Option String) (r : DraftRow) : DraftRow :=
  { r with status := DraftStatus.approved.value
           reviewed_at := some now
           reviewer_notes := if optTruthy notes then notes else r.reviewer_notes }

/-- `DraftManager.approve`: only from `PENDING` or `FAILED`; sets status
`approved`, `reviewed_at`, and `reviewer_notes` when `notes` is truthy. -/
def approveDraft (now : String) (id : String) (notes : Option String)
    (rows : List DraftRow) : Bool × List DraftRow :=
  match getDraft rows id with
  | none => (false, rows)
  | some d =>
    if d.status = DraftStatus.pending ∨ d.status = DraftStatus.failed then
      (true, dbUpdateById (approvePatch now notes) id rows)
    else (false, rows)

/-- The column assignments of `DraftManager.reject` (`status='rejected'`,
`reviewed_at=now`, `reviewer_notes = notes or None`). -/
def rejectPatch (now : String) (notes : String) (r : DraftRow) : DraftRow :=
  { r with status := DraftStatus.rejected.value
           reviewed_at := some now
           reviewer_notes := if notes = "" then none else some notes }

/-- `DraftManager.reject`: only from `PENDING`; sets status `rejected`,
`reviewed_at`, and `reviewer_notes := notes or None`. -/
def rejectDraft (now : String) (id : String) (notes : String)
    (rows : List DraftRow) : Bool × List DraftRow :=
  match getDraft rows id with
  | none => (false, rows)
  | some d =>
    if d.status = DraftStatus.pending then
      (true, dbUpdateById (rejectPatch now notes) id rows)
    else (false, rows)

/-- The column assignments of `DraftManager.mark_posted` (`status='posted'`,
`posted_at=now`, `post_url = post_url or None`). -/
def postPatch (now : String) (postUrl : String) (r : DraftRow) : DraftRow :=
  { r with status := DraftStatus.posted.value
           posted_at := some now
           post_url := if postUrl = "" then none else some postUrl }

/-- `DraftManager.mark_posted`: only from `APPROVED`; sets status `posted`,
`posted_at`, and `post_url := post_url or None`. -/
def markPosted (now : String) (id : String) (postUrl : String)
    (rows : List DraftRow) : Bool × List DraftRow :=
  match getDraft rows id with
  | none => (false, rows)
  | some d =>
    if d.status = DraftStatus.approved then
      (true, dbUpdateById (postPatch now postUrl) id rows)
    else (false, rows)

/-- `DraftManager.mark_failed`: unconditional
`update_draft_status(id, 'failed', error_message=error)`; always returns
`True`, with no existence or status check.  Its column assignments: -/
def failPatch (error : String) (r : DraftRow) : DraftRow :=
  { r with status := DraftStatus.failed.value
           error_message := some error }

/-- `DraftManager.mark_failed`, continued: the unconditional update. -/
def markFailed (id : String) (error : String)
    (rows : List DraftRow) : Bool × List DraftRow :=
  (true, dbUpdateById (failPatch error) id rows)

/-- `DraftManager.delete`: `get` first (missing → `False`), then delete the
row(s); `rowcount > 0` holds because the row was found. -/
def deleteDraft (id : String) (rows : List DraftRow) : Bool × List DraftRow :=
  match getDraft rows id with
  | none => (false, rows)
  | some _ => (true, rows.filter (fun r => !(r.id = id : Bool)))

/-- The column assignments of `DraftManager.update_content`: always `content`
and `status := 'pending'`; `hashtags` only when a list was supplied. -/
def updateContentRow (content : String) (hashtags : Option (List String))
    (r : DraftRow) : DraftRow :=
  { r with content := content
           status := DraftStatus.pending.value
           hashtags := match hashtags with
                       | some h => some h
                       | none => r.hashtags }

/-- `DraftManager.update_content`: patch matching rows, return `True`
unconditionally. -/
def updateContent (id : String) (content : String)
    (hashtags : Option (List String)) (rows : List DraftRow) :
    Bool × List DraftRow :=
  (true, dbUpdateById (updateContentRow content hashtags) id rows)

/-- `Database.expire_old_drafts`: `UPDATE drafts SET status='expired' WHERE
status='pending' AND created_at < cutoff`.  The SQL age comparison against
`datetime('now', '-N days')` is the opaque predicate `isOld` on the
`created_at` column. -/
def expireOldDrafts (isOld : Option String → Bool) (rows : List DraftRow) :
    List DraftRow :=
  rows.map (fun r =>
    if r.status = DraftStatus.pending.value ∧ isOld r.created_at then
      { r with status := DraftStatus.expired.value }
    else r)

/-! ## generator/safety.py — ContentSafety

The compliance regexes all have the shape
`\b(w|w'|…)\s+(v|v'|…)\b` (with `?`-suffixed letters expanded into explicit
alternatives), so they are embedded as word-boundary-delimited sequences of
alternative-word groups separated by runs of whitespace. -/

/-- Python regex `\w` on the ASCII fragment: letters, digits, underscore. -/
def isWordChar (c : Char) : Bool :=
  c.isAlphanum || c = '_'

/-- Python regex `\s` on the ASCII fragment. -/
def isSpaceChar (c : Char) : Bool :=
  c = ' ' || c = '\t' || c = '\n' || c = '\r' || c = '\x0b' || c = '\x0c'

/-- Match `\s+` then skip further whitespace (the following regex token is
always a word character, so greedy consumption is equivalent). -/
def eatSpaces1 : List Char → Option (List Char)
  | c :: t => if isSpaceChar c then some (t.dropWhile isSpaceChar) else none
  | [] => none

/-- `\b` right after a word: end of input or a non-word character. -/
def endBoundary : List Char → Bool
  | [] => true
  | c :: _ => !isWordChar c

/-- Match the group sequence `g₁ \s+ g₂ \s+ … \s+ gₙ \b` at the current
position, trying every alternative word of each group (regex backtracking). -/
def matchGroupsFrom : List (List String) → List Char → Bool
  | [], _ => false
  | [g], l =>
      g.any (fun w =>
        w.data.isPrefixOf l && endBoundary (l.drop w.data.length))
  | g :: g2 :: gs, l =>
      g.any (fun w =>
        w.data.isPrefixOf l &&
          match eatSpaces1 (l.drop w.data.length) with
          | some rest => matchGroupsFrom (g2 :: gs) rest
          | none => false)

/-- `re.search` of a `\b`-anchored group-sequence pattern: try every position
whose predecessor is absent or a non-word character. -/
def searchFrom (groups : List (List String)) : List Char → Bool → Bool
  | l, atBoundary =>
    (atBoundary && matchGroupsFrom groups l) ||
      match l with
      | [] => false
      | c :: t => searchFrom groups t (!isWordChar c)

/-- `re.search(pattern, content_lower)` as used by `_check_compliance`. -/
def searchPattern (groups : List (List String)) (lowered : List Char) : Bool :=
  searchFrom groups lowered true

/-- `financial_patterns` of `ContentSafety._check_compliance`:
`\b(invest|buy|sell)\s+(now|today|immediately)\b`,
`\bguaranteed\s+(returns?|profit)\b`, `\bnot\s+financial\s+advice\b`. -/
def financialPatterns : List (List (List String)) :=
  [ [["invest", "buy", "sell"], ["now", "today", "immediately"]],
    [["guaranteed"], ["returns", "return", "profit"]],
    [["not"], ["financial"], ["advice"]] ]

/-- `medical_patterns` of `ContentSafety._check_compliance`:
`\b(cure[sd]?|treat[sd]?|heal[sd]?)\s+(disease|illness|cancer|covid)\b`. -/
def medicalPatterns : List (List (List String)) :=
  [ [["cure", "cures", "cured", "treat", "treats", "treated", "heal", "heals", "healed"],
     ["disease", "illness", "cancer", "covid"]] ]

/-- `ContentSafety._check_compliance`: each pattern family contributes at most
one issue (the Python loop breaks after the first matching pattern). -/
def checkCompliance (content : String) : List String :=
  let content_lower := lowerChars content
  let fin :=
    if financialPatterns.any (fun p => searchPattern p content_lower) then
      ["May contain financial advice language"]
    else []
  let med :=
    if medicalPatterns.any (fun p => searchPattern p content_lower) then
      ["May contain medical claims"]
    else []
  fin ++ med

/-- `SafetyResult` dataclass from `generator/safety.py`. -/
structure SafetyResult where
  is_safe : Bool
  issues : List String
deriving DecidableEq, Repr

/-- `ContentSafety` from `generator/safety.py`.  `containsProfanity` is the
external `better_profanity.profanity.contains_profanity` predicate (with any
configured extra censor words loaded), left uninterpreted; `blocked_words`
are stored lower-cased by `__init__`. -/
structure ContentSafety where
  blocked_words : List String
  containsProfanity : String → Bool

/-- `ContentSafety.__init__`: lower-case the configured blocked words. -/
def ContentSafety.init (blockedWords : List String)
    (containsProfanity : String → Bool) : ContentSafety :=
  { blocked_words := blockedWords.map (fun w => String.mk (lowerChars w))
    containsProfanity := containsProfanity }

/-- `ContentSafety.check`: profanity scan, blocked-word scan (case-insensitive
substring), compliance scan; `is_safe` iff the issue list is empty. -/
def ContentSafety.check (cs : ContentSafety) (content : String) : SafetyResult :=
  let profanityIssues :=
    if cs.containsProfanity content then
      ["Contains profanity or vulgar language"]
    else []
  let content_lower := lowerChars content
  let blockedIssues := cs.blocked_words.filterMap (fun w =>
    if charsContain content_lower w.data then
      some ("Contains blocked word: \x27" ++ w ++ "\x27")
    else none)
  let issues := profanityIssues ++ blockedIssues ++ checkCompliance content
  { is_safe := issues.isEmpty, issues := issues }

/-! ## generator/llm_client.py — GenerationResult and cost estimation -/

/-- `GenerationResult` dataclass from `generator/llm_client.py`. -/
structure GenerationResult where
  text : String
  model : String
  input_tokens : Nat
  output_tokens : Nat
  total_tokens : Nat
  estimated_cost : Rat
deriving DecidableEq, Repr

/-- Python `str.startswith` (code-point prefix test, structural so that the
kernel can evaluate it). -/
def strStartsWith (s pre : String) : Bool :=
  pre.data.isPrefixOf s.data

/-- A vendor cost table: association list in Python-dict insertion order, each
entry `(model key, (input price, output price))` per 1M tokens. -/
abbrev CostTable := List (String × Rat × Rat)

/-- `ANTHROPIC_COSTS` from `generator/llm_client.py`. -/
def anthropicCosts : CostTable :=
  [ ("claude-sonnet-4-5-20250929", (3.00, 15.00)),
    ("claude-sonnet-4-6", (3.00, 15.00)),
    ("claude-opus-4-6", (15.00, 75.00)),
    ("claude-haiku-4-5-20251001", (0.80, 4.00)) ]

/-- `OPENAI_COSTS` from `generator/llm_client.py`. -/
def openaiCosts : CostTable :=
  [ ("gpt-4o", (2.50, 10.00)),
    ("gpt-4o-mini", (0.15, 0.60)),
    ("gpt-4-turbo", (10.00, 30.00)),
    ("o1", (15.00, 60.00)),
    ("o1-mini", (3.00, 12.00)),
    ("o3-mini", (1.10, 4.40)) ]

/-- `GOOGLE_COSTS` from `generator/llm_client.py`. -/
def googleCosts : CostTable :=
  [ ("gemini-2.0-flash", (0.10, 0.40)),
    ("gemini-2.5-pro", (1.25, 10.00)),
    ("gemini-2.5-flash", (0.15, 0.60)),
    ("gemini-1.5-pro", (1.25, 5.00)),
    ("gemini-1.5-flash", (0.075, 0.30)) ]

/-- `_estimate_cost` from `generator/llm_client.py`: exact key lookup first,
otherwise the first key (in table order) that is a prefix of the model name,
otherwise zero prices; then the per-1M-token linear formula. -/
def estimateCost (model : String) (inputTokens outputTokens : Nat)
    (costTable : CostTable) : Rat :=
  let costs :=
    match costTable.find? (fun e => e.1 = model) with
    | some e => e.2
    | none =>
      match costTable.find? (fun (e : String × Rat × Rat) => strStartsWith model e.1) with
      | some e => e.2
      | none => ((0 : Rat), (0 : Rat))
  (inputTokens : Rat) / 1000000 * costs.1 + (outputTokens : Rat) / 1000000 * costs.2

/-- Modelled from the amended spec: the table entry `_estimate_cost` selects —
the exact-match entry if the model name is a key, else the first entry in
table order whose key is a prefix of the model name, else zero prices. -/
def selectedCosts (model : String) (costTable : CostTable) : Rat × Rat :=
  match costTable.find? (fun e => e.1 = model) with
  | some e => e.2
  | none =>
    match costTable.find? (fun (e : String × Rat × Rat) => strStartsWith model e.1) with
    | some e => e.2
    | none => ((0 : Rat), (0 : Rat))

/-- Modelled from the spec as written (claim C2): the entry selection the spec
describes — exact match first, then the longest-prefix match among table keys
that are prefixes of the model name, else zero prices. -/
def selectedCostsLongestPrefixSpec (model : String) (costTable : CostTable) :
    Rat × Rat :=
  match costTable.find? (fun e => e.1 = model) with
  | some e => e.2
  | none =>
    let prefixKeys := costTable.filter (fun (e : String × Rat × Rat) => strStartsWith model e.1)
    match prefixKeys.foldl
        (fun (best : Option (String × Rat × Rat)) (e : String × Rat × Rat) =>
          match best with
          | none => some e
          | some b => if e.1.length > b.1.length then some e else some b)
        (none : Option (String × Rat × Rat)) with
    | some e => e.2
    | none => ((0 : Rat), (0 : Rat))

/-! ## generator/content_generator.py — ContentGenerator

`generate_tweet` is embedded after prompt construction: the system and user
prompts it builds from config, trends and sources enter as the opaque
arguments `systemPrompt` and `userPrompt`, and the strings the code appends to
the system prompt before each corrective retry are kept verbatim.  The LLM is
the oracle `llm`.  Counts of trends and sources, the hashtag list, tone, the
configured `max_length`, the profanity-filter flag and the fresh draft id are
passed in directly. -/

/-- Python `str.strip()` (ASCII whitespace). -/
def pyStrip (s : String) : String :=
  String.mk (((s.data.dropWhile isSpaceChar).reverse.dropWhile isSpaceChar).reverse)

/-- The string appended to the system prompt for the safety retry in
`generate_tweet`. -/
def profanityRetrySuffix : String :=
  "\n\nIMPORTANT: Avoid any profanity, vulgarity, or inappropriate language."

/-- The hard character-count instruction appended to the system prompt for the
length retry in `generate_tweet`. -/
def lengthRetrySuffix (maxLength : Nat) : String :=
  "\n\nCRITICAL: Your response MUST be under " ++ toString maxLength ++
    " characters including hashtags."

/-- The `Draft` constructed and persisted at the end of `generate_tweet`. -/
def tweetDraft (newId content : String) (hashtags : List String) (tone : String)
    (trendsCount sourcesCount : Nat) (result : GenerationResult) : Draft :=
  { id := newId
    platform := Platform.twitter
    content := content
    hashtags := hashtags
    tone := tone
    source_reference :=
      "trends:" ++ toString trendsCount ++ ",sources:" ++ toString sourcesCount
    generation_model := some result.model
    generation_tokens := some (result.total_tokens : Int)
    generation_cost := some result.estimated_cost }

/-- `ContentGenerator.generate_tweet` from the safety check onward (the prompt
assembly above it only produces `systemPrompt`/`userPrompt`).  Returns the
Python return value and the drafts table after the call. -/
def generateTweet (llm : String → String → GenerationResult)
    (safety : ContentSafety) (profanityFilter : Bool) (maxLength : Nat)
    (systemPrompt userPrompt : String) (hashtags : List String) (tone : String)
    (trendsCount sourcesCount : Nat) (dryRun : Bool) (newId : String)
    (rows : List DraftRow) : Option Draft × List DraftRow :=
  let result := llm systemPrompt userPrompt
  let result :=
    if !(safety.check result.text).is_safe && profanityFilter then
      llm (systemPrompt ++ profanityRetrySuffix) userPrompt
    else result
  let content := pyStrip result.text
  let retried :=
    if content.length > maxLength then
      let result2 := llm (systemPrompt ++ lengthRetrySuffix maxLength) userPrompt
      (result2, pyStrip result2.text)
    else (result, content)
  let result := retried.1
  let content := retried.2
  if dryRun then
    (some { id := newId, platform := Platform.twitter, content := content,
            hashtags := hashtags, tone := tone }, rows)
  else
    let draft := tweetDraft newId content hashtags tone trendsCount sourcesCount result
    (some draft, (createDraft draft rows).2)

/-- `ContentGenerator.regenerate`: fetch the draft (missing → `None`), rebuild
prompts (the builders enter as opaque functions `buildSys`/`buildRegen`), call
the LLM once, run the safety check (result only logged), strip, write through
`update_content` with the draft's existing hashtag list, and re-fetch. -/
def regenerate (llm : String → String → GenerationResult)
    (buildSys : Platform → String → String)
    (buildRegen : String → String → String → String)
    (draftId newTone : String) (rows : List DraftRow) :
    Option Draft × List DraftRow :=
  match getDraft rows draftId with
  | none => (none, rows)
  | some draft =>
    let platformName := if draft.platform = Platform.twitter then "tweet" else "LinkedIn post"
    let systemPrompt := buildSys draft.platform newTone
    let userPrompt := buildRegen draft.content newTone platformName
    let result := llm systemPrompt userPrompt
    let content := pyStrip result.text
    let rows2 := (updateContent draftId content (some draft.hashtags) rows).2
    (getDraft rows2 draftId, rows2)


/-! ## Spec-side definitions and concrete inputs used by the theorems -/

/-- Modelled from the spec's words for claim C7: `display_content` is
`content` plus the hashtags not already substring-present (case-insensitively)
in `content`, space-joined; unchanged `content` when none are missing. -/
def displayContentSpec (d : Draft) : String :=
  let missing := d.hashtags.filter
    (fun t => !charsContain (lowerChars d.content) (lowerChars t))
  if missing.isEmpty then d.content
  else d.content ++ " " ++ " ".intercalate missing

/-- An LLM oracle that always answers with 8 characters of text (used to
exercise the tweet length retry against a 5-character ceiling). -/
def overLlm : String → String → GenerationResult :=
  fun _ _ =>
    { text := "abcdefgh", model := "m", input_tokens := 1, output_tokens := 2,
      total_tokens := 3, estimated_cost := 0 }

/-- A checker with no blocked words whose profanity lexicon flags nothing. -/
def noopSafety : ContentSafety :=
  { blocked_words := [], containsProfanity := fun _ => false }

/-- A stored draft row in the terminal `posted` status. -/
def cexPostedRow : DraftRow :=
  { id := "a", platform := "twitter", content := "c", status := "posted" }

/-- A stored draft row in the terminal `expired` status. -/
def cexExpiredRow : DraftRow :=
  { id := "b", platform := "twitter", content := "c", status := "expired" }

/-- A stored draft row in the `pending` status. -/
def cexPendingRow : DraftRow :=
  { id := "p1", platform := "twitter", content := "hello", status := "pending" }

/-- The decoded form of `cexPendingRow`. -/
def cexPendingDraft : Draft :=
  { id := "p1", platform := Platform.twitter, content := "hello",
    status := DraftStatus.pending }

/-- A stored draft row in the `rejected` status carrying review fields. -/
def cexRejectedRow : DraftRow :=
  { id := "r1", platform := "twitter", content := "old", status := "rejected",
    reviewer_notes := some "bad", reviewed_at := some "t0" }

/-- The decoded form of `cexRejectedRow`. -/
def cexRejectedDraft : Draft :=
  { id := "r1", platform := Platform.twitter, content := "old",
    status := DraftStatus.rejected, reviewer_notes := some "bad",
    reviewed_at := some "t0" }

/-- A constant LLM oracle for exercising `regenerate`. -/
def c6Llm : String → String → GenerationResult :=
  fun _ _ =>
    { text := "regenerated text", model := "m", input_tokens := 0,
      output_tokens := 0, total_tokens := 0, estimated_cost := 0 }

/-- A constant system-prompt builder for exercising `regenerate`. -/
def c6BuildSys : Platform → String → String := fun _ _ => "sys"

/-- A constant rewrite-prompt builder for exercising `regenerate`. -/
def c6BuildRegen : String → String → String → String := fun _ _ _ => "usr"

/-! ## Helper lemmas about the embedded store -/

theorem Platform.ofValue_platform_value (p : Platform) : Platform.ofValue p.value = some p := by
  cases p <;> rfl

theorem DraftStatus.ofValue_status_value (s : DraftStatus) :
    DraftStatus.ofValue s.value = some s := by
  cases s <;> rfl

/-- With distinct row ids, looking up a stored row's own id finds that row. -/
theorem findRow_self_of_nodup (rows : List DraftRow)
    (hN : (rows.map DraftRow.id).Nodup) (r : DraftRow) (hmem : r ∈ rows) :
    findRow rows r.id = some r := by
  induction rows with
  | nil => cases hmem
  | cons a t ih =>
    rcases List.mem_cons.1 hmem with rfl | hmem2
    · simp [findRow, List.find?]
    · have ha : ¬(a.id = r.id) := by
        intro h
        exact (List.nodup_cons.1 hN).1
          (h ▸ List.mem_map_of_mem DraftRow.id hmem2)
      have hN2 := (List.nodup_cons.1 hN).2
      simp only [findRow, List.find?, decide_eq_true_eq] at *
      simp [ha]
      exact ih hN2 hmem2

/-- Lookup after an id-preserving `UPDATE … WHERE id = ?` finds the patched
version of the row the lookup found before. -/
theorem findRow_dbUpdateById (patch : DraftRow → DraftRow)
    (hpid : ∀ r, (patch r).id = r.id) (id : String) (rows : List DraftRow) :
    findRow (dbUpdateById patch id rows) id = (findRow rows id).map patch := by
  induction rows with
  | nil => rfl
  | cons a t ih =>
    by_cases h : a.id = id
    · simp [findRow, dbUpdateById, List.find?, h, hpid a]
    · have e1 : dbUpdateById patch id (a :: t) = a :: dbUpdateById patch id t := by
        simp [dbUpdateById, if_neg h]
      rw [e1]
      unfold findRow at ih ⊢
      rw [List.find?_cons_of_neg _ (by simp [h]), List.find?_cons_of_neg _ (by simp [h])]
      exact ih

theorem getDraft_dbUpdateById (patch : DraftRow → DraftRow)
    (hpid : ∀ r, (patch r).id = r.id) (id : String) (rows : List DraftRow) :
    getDraft (dbUpdateById patch id rows) id
      = (findRow rows id).bind (fun r => Draft.fromDbRow (patch r)) := by
  unfold getDraft
  rw [findRow_dbUpdateById patch hpid]
  cases findRow rows id <;> rfl

/-- A successful decode pins the enum columns of the row. -/
theorem fromDbRow_parts (r : DraftRow) (d : Draft) (h : Draft.fromDbRow r = some d) :
    Platform.ofValue r.platform = some d.platform
    ∧ DraftStatus.ofValue r.status = some d.status := by
  unfold Draft.fromDbRow at h
  rcases hp : Platform.ofValue r.platform with _ | p <;>
    rcases hs : DraftStatus.ofValue r.status with _ | s <;>
      simp [hp, hs] at h
  subst h
  constructor
  · simp [hp]
  · simp [hs]

theorem getDraft_some_parts (rows : List DraftRow) (id : String) (d : Draft)
    (hget : getDraft rows id = some d) :
    ∃ r0, findRow rows id = some r0 ∧ Draft.fromDbRow r0 = some d := by
  unfold getDraft at hget
  cases hfr : findRow rows id with
  | none => rw [hfr] at hget; cases hget
  | some r0 => rw [hfr] at hget; exact ⟨r0, rfl, hget⟩

/-- Rows with a different id survive `UPDATE … WHERE id = ?` untouched. -/
theorem mem_dbUpdateById_of_ne (patch : DraftRow → DraftRow) (id : String)
    (rows : List DraftRow) (r : DraftRow) (hmem : r ∈ rows) (hne : ¬(r.id = id)) :
    r ∈ dbUpdateById patch id rows := by
  unfold dbUpdateById
  exact List.mem_map.2 ⟨r, hmem, by simp [hne]⟩

/-- With distinct ids, the decoded draft at a stored row's id carries that
row's status. -/
theorem status_of_getDraft_self (rows : List DraftRow)
    (hN : (rows.map DraftRow.id).Nodup) (r : DraftRow) (hmem : r ∈ rows)
    (dd : Draft) (hg : getDraft rows r.id = some dd) :
    DraftStatus.ofValue r.status = some dd.status := by
  have hfr := findRow_self_of_nodup rows hN r hmem
  unfold getDraft at hg
  rw [hfr] at hg
  exact (fromDbRow_parts r dd hg).2

/-- `UPDATE … WHERE id = ?` with no matching row leaves the table unchanged. -/
theorem dbUpdateById_no_match (patch : DraftRow → DraftRow) (id : String)
    (rows : List DraftRow) (hne : ∀ r ∈ rows, ¬(r.id = id)) :
    dbUpdateById patch id rows = rows := by
  unfold dbUpdateById
  induction rows with
  | nil => rfl
  | cons a t ih =>
    simp only [List.map_cons, if_neg (hne a (List.mem_cons_self a t))]
    rw [ih (fun r hr => hne r (List.mem_cons_of_mem a hr))]

/-! ## Claim theorems -/

/-- Claim C1 (amended): in `generate_tweet`, content over the configured
ceiling triggers exactly one corrective regeneration whose system prompt
carries the hard character-count instruction; but the second attempt's
content is then used, and the draft is constructed, persisted and returned
regardless of whether that content still exceeds the ceiling — there is no
second length check, no failure path and no truncation. -/
theorem generate_tweet_overlength_persists (llm : String → String → GenerationResult)
    (safety : ContentSafety) (profanityFilter : Bool) (maxLength : Nat)
    (systemPrompt userPrompt : String) (hashtags : List String) (tone : String)
    (tc sc : Nat) (newId : String) (rows : List DraftRow)
    (hsafe : (safety.check (llm systemPrompt userPrompt).text).is_safe = true)
    (hover : (pyStrip (llm systemPrompt userPrompt).text).length > maxLength) :
    generateTweet llm safety profanityFilter maxLength systemPrompt userPrompt
        hashtags tone tc sc false newId rows
      = (some (tweetDraft newId
            (pyStrip (llm (systemPrompt ++ lengthRetrySuffix maxLength) userPrompt).text)
            hashtags tone tc sc
            (llm (systemPrompt ++ lengthRetrySuffix maxLength) userPrompt)),
         rows ++ [(tweetDraft newId
            (pyStrip (llm (systemPrompt ++ lengthRetrySuffix maxLength) userPrompt).text)
            hashtags tone tc sc
            (llm (systemPrompt ++ lengthRetrySuffix maxLength) userPrompt)).toDbDict]) := by
  unfold generateTweet
  simp only [hsafe, Bool.not_true, Bool.false_and, Bool.false_eq_true, if_false,
    if_pos hover, createDraft]

/-- Claim C1, counterexample: with a 5-character ceiling and an oracle that
always answers 8 characters, the second attempt is still over the ceiling,
yet `generate_tweet` returns a draft (8 characters long) and persists it —
not "no draft", as the claim states. -/
theorem generate_tweet_still_overlength_counterexample :
    ((generateTweet overLlm noopSafety true 5 "sys" "usr" ["#AI"] "tone" 0 0
        false "id1" []).1).isSome = true
    ∧ (generateTweet overLlm noopSafety true 5 "sys" "usr" ["#AI"] "tone" 0 0
        false "id1" []).2 ≠ ([] : List DraftRow)
    ∧ (((generateTweet overLlm noopSafety true 5 "sys" "usr" ["#AI"] "tone" 0 0
        false "id1" []).1).map (fun d => d.content.length)).getD 0 > 5 := by
  refine ⟨by decide, by decide, by decide⟩

/-- Witness for C1 (amended) at the concrete over-length oracle. -/
theorem generate_tweet_overlength_witness :
    generateTweet overLlm noopSafety true 5 "sys" "usr" ["#AI"] "tone" 0 0
        false "id1" []
      = (some (tweetDraft "id1"
            (pyStrip (overLlm ("sys" ++ lengthRetrySuffix 5) "usr").text)
            ["#AI"] "tone" 0 0
            (overLlm ("sys" ++ lengthRetrySuffix 5) "usr")),
         [] ++ [(tweetDraft "id1"
            (pyStrip (overLlm ("sys" ++ lengthRetrySuffix 5) "usr").text)
            ["#AI"] "tone" 0 0
            (overLlm ("sys" ++ lengthRetrySuffix 5) "usr")).toDbDict]) :=
  generate_tweet_overlength_persists overLlm noopSafety true 5 "sys" "usr"
    ["#AI"] "tone" 0 0 "id1" [] (by decide) (by decide)

/-- Claim C2, counterexample: the prefix fallback of `_estimate_cost` is NOT
the longest-prefix match the spec describes.  For
`"gpt-4o-mini-2024-07-18"` with 1,000,000 input tokens, the code picks the
first matching key `"gpt-4o"` in table order ($2.50/1M input), while the
longest prefix key is `"gpt-4o-mini"` ($0.15/1M input); the two costs differ. -/
theorem estimate_cost_longest_prefix_counterexample :
    estimateCost "gpt-4o-mini-2024-07-18" 1000000 0 openaiCosts = 5 / 2
    ∧ (1000000 : Rat) / 1000000
        * (selectedCostsLongestPrefixSpec "gpt-4o-mini-2024-07-18" openaiCosts).1
      + (0 : Rat) / 1000000
        * (selectedCostsLongestPrefixSpec "gpt-4o-mini-2024-07-18" openaiCosts).2
      = 3 / 20
    ∧ ((5 : Rat) / 2 ≠ 3 / 20) := by
  refine ⟨?_, ?_, by norm_num⟩
  · show (1000000 : Rat) / 1000000 * (2.50 : Rat) + (0 : Rat) / 1000000 * (10.00 : Rat)
      = 5 / 2
    norm_num
  · show (1000000 : Rat) / 1000000 * (0.15 : Rat) + (0 : Rat) / 1000000 * (0.60 : Rat)
      = 3 / 20
    norm_num

/-- Claim C2 (amended): `_estimate_cost` tries an exact key match first, then
the FIRST key in the table's insertion order that is a prefix of the model
name (not the longest such key); with no match the selected prices are zero,
so the cost is 0.0 with no error; and the cost always equals
`input_tokens/1e6 * input_price + output_tokens/1e6 * output_price` for the
selected entry. -/
theorem estimate_cost_amended (model : String) (i o : Nat) (table : CostTable) :
    estimateCost model i o table
      = (i : Rat) / 1000000 * (selectedCosts model table).1
        + (o : Rat) / 1000000 * (selectedCosts model table).2
    ∧ (selectedCosts model table = ((0 : Rat), (0 : Rat))
        → estimateCost model i o table = 0) := by
  constructor
  · rfl
  · intro h
    show (i : Rat) / 1000000 * (selectedCosts model table).1
        + (o : Rat) / 1000000 * (selectedCosts model table).2 = 0
    rw [h]
    simp

/-- Witness for C2 (amended): a model absent from the Anthropic table costs 0. -/
theorem estimate_cost_amended_witness :
    estimateCost "unknown-model" 123456 7890 anthropicCosts = 0 :=
  (estimate_cost_amended "unknown-model" 123456 7890 anthropicCosts).2 rfl

/-- Claim C3 (amended): POSTED and EXPIRED drafts are left untouched by the
guarded operations `approve`, `reject`, `mark_posted` and by `expire_old`
(which only expires PENDING rows); but `mark_failed` is unconditional — it
sets FAILED on the addressed draft whatever its status, POSTED and EXPIRED
included — and `update_content` likewise unconditionally resets the addressed
draft to PENDING, so POSTED and EXPIRED are not terminal under those two
operations. -/
theorem terminal_statuses_amended (now url ns err c2 : String) (notes : Option String)
    (isOld : Option String → Bool) (id : String)
    (ht : Option (List String)) (rows : List DraftRow)
    (hN : (rows.map DraftRow.id).Nodup) (r : DraftRow) (hmem : r ∈ rows)
    (hterm : r.status = DraftStatus.posted.value ∨ r.status = DraftStatus.expired.value) :
    r ∈ (approveDraft now id notes rows).2
    ∧ r ∈ (rejectDraft now id ns rows).2
    ∧ r ∈ (markPosted now id url rows).2
    ∧ r ∈ expireOldDrafts isOld rows
    ∧ (∀ r2, r2 ∈ (markFailed id err rows).2 → r2.id = id
        → r2.status = DraftStatus.failed.value)
    ∧ (∀ r2, r2 ∈ (updateContent id c2 ht rows).2 → r2.id = id
        → r2.status = DraftStatus.pending.value) := by
  have hsr : ∀ dd : Draft, getDraft rows id = some dd → r.id = id →
      dd.status = DraftStatus.posted ∨ dd.status = DraftStatus.expired := by
    intro dd hg hid
    have h2 := status_of_getDraft_self rows hN r hmem dd (hid ▸ hg)
    rcases hterm with h | h <;> rw [h, DraftStatus.ofValue_status_value] at h2
    · exact Or.inl (Option.some.inj h2).symm
    · exact Or.inr (Option.some.inj h2).symm
  refine ⟨?_, ?_, ?_, ?_, ?_, ?_⟩
  · unfold approveDraft
    cases hg : getDraft rows id with
    | none => exact hmem
    | some dd =>
      by_cases hid : r.id = id
      · rcases hsr dd hg hid with h | h <;> simp [h]
        · exact hmem
        · exact hmem
      · by_cases hc : dd.status = DraftStatus.pending ∨ dd.status = DraftStatus.failed
        · simp only [if_pos hc]
          exact mem_dbUpdateById_of_ne _ _ _ _ hmem hid
        · simp only [if_neg hc]
          exact hmem
  · unfold rejectDraft
    cases hg : getDraft rows id with
    | none => exact hmem
    | some dd =>
      by_cases hid : r.id = id
      · rcases hsr dd hg hid with h | h <;> simp [h]
        · exact hmem
        · exact hmem
      · by_cases hc : dd.status = DraftStatus.pending
        · simp only [if_pos hc]
          exact mem_dbUpdateById_of_ne _ _ _ _ hmem hid
        · simp only [if_neg hc]
          exact hmem
  · unfold markPosted
    cases hg : getDraft rows id with
    | none => exact hmem
    | some dd =>
      by_cases hid : r.id = id
      · rcases hsr dd hg hid with h | h <;> simp [h]
        · exact hmem
        · exact hmem
      · by_cases hc : dd.status = DraftStatus.approved
        · simp only [if_pos hc]
          exact mem_dbUpdateById_of_ne _ _ _ _ hmem hid
        · simp only [if_neg hc]
          exact hmem
  · unfold expireOldDrafts
    refine List.mem_map.2 ⟨r, hmem, ?_⟩
    rcases hterm with h | h <;> simp [h, DraftStatus.value]
  · intro r2 h2 hid2
    unfold markFailed dbUpdateById at h2
    rcases List.mem_map.1 h2 with ⟨r3, _, rfl⟩
    by_cases h : r3.id = id
    · simp [h, failPatch]
    · simp [h] at hid2
  · intro r2 h2 hid2
    unfold updateContent dbUpdateById at h2
    rcases List.mem_map.1 h2 with ⟨r3, _, rfl⟩
    by_cases h : r3.id = id
    · simp [h, updateContentRow]
    · simp [h] at hid2

/-- Claim C3, counterexample: `mark_failed` on a POSTED draft changes its
status to `failed`, and `update_content` on an EXPIRED draft changes its
status to `pending` — so POSTED and EXPIRED are not terminal as claimed. -/
theorem terminal_statuses_counterexample :
    (markFailed "a" "boom" [cexPostedRow]).2.map DraftRow.status = ["failed"]
    ∧ cexPostedRow.status = "posted"
    ∧ (updateContent "b" "new" none [cexExpiredRow]).2.map DraftRow.status = ["pending"]
    ∧ cexExpiredRow.status = "expired" := ⟨rfl, rfl, rfl, rfl⟩

/-- Witness for C3 (amended) at a concrete POSTED row. -/
theorem terminal_statuses_witness :
    cexPostedRow ∈ (approveDraft "t1" "a" none [cexPostedRow]).2
    ∧ cexPostedRow ∈ expireOldDrafts (fun _ => true) [cexPostedRow] := by
  have h := terminal_statuses_amended "t1" "u" "n" "e" "c" none (fun _ => true) "a" none
    [cexPostedRow] (by decide) cexPostedRow (by decide) (Or.inl rfl)
  exact ⟨h.1, h.2.2.2.1⟩

/-- Claim C4 (amended): for a draft id absent from the store, `get` returns
null and `approve`, `reject`, `mark_posted` and `delete` return false, all
without raising and leaving the store unchanged; but `mark_failed` and
`update_content` perform no existence check and return TRUE (their UPDATE
simply matches zero rows, so the store is still unchanged). -/
theorem missing_id_amended (now ns url err c2 : String) (notes : Option String)
    (ht : Option (List String)) (id : String) (rows : List DraftRow)
    (hmiss : findRow rows id = none) :
    getDraft rows id = none
    ∧ approveDraft now id notes rows = (false, rows)
    ∧ rejectDraft now id ns rows = (false, rows)
    ∧ markPosted now id url rows = (false, rows)
    ∧ deleteDraft id rows = (false, rows)
    ∧ markFailed id err rows = (true, rows)
    ∧ updateContent id c2 ht rows = (true, rows) := by
  have hg : getDraft rows id = none := by
    unfold getDraft
    rw [hmiss]
    rfl
  have hne : ∀ r ∈ rows, ¬(r.id = id) := by
    intro r hr h
    have := List.find?_eq_none.1 hmiss r hr
    simp at this
    exact this h
  have hnone : ∀ patch : DraftRow → DraftRow, dbUpdateById patch id rows = rows :=
    fun patch => dbUpdateById_no_match patch id rows hne
  refine ⟨hg, ?_, ?_, ?_, ?_, ?_, ?_⟩
  · unfold approveDraft; rw [hg]
  · unfold rejectDraft; rw [hg]
  · unfold markPosted; rw [hg]
  · unfold deleteDraft; rw [hg]
  · unfold markFailed; rw [hnone (failPatch err)]
  · unfold updateContent; rw [hnone (updateContentRow c2 ht)]

/-- Claim C4, counterexample: `mark_failed` and `update_content` addressed to
a missing draft id return TRUE, not null/false as the claim states (the store
is indeed unchanged). -/
theorem missing_id_counterexample :
    (markFailed "missing-id" "boom" ([] : List DraftRow)).1 = true
    ∧ (updateContent "missing-id" "c" none ([] : List DraftRow)).1 = true
    ∧ findRow ([] : List DraftRow) "missing-id" = none := ⟨rfl, rfl, rfl⟩

/-- Witness for C4 (amended) on the empty store. -/
theorem missing_id_witness :
    getDraft ([] : List DraftRow) "d1" = none
    ∧ approveDraft "t" "d1" none [] = (false, [])
    ∧ rejectDraft "t" "d1" "n" [] = (false, [])
    ∧ markPosted "t" "d1" "u" [] = (false, [])
    ∧ deleteDraft "d1" [] = (false, [])
    ∧ markFailed "d1" "e" [] = (true, [])
    ∧ updateContent "d1" "c" none [] = (true, []) :=
  missing_id_amended "t" "n" "u" "e" "c" none none "d1" [] rfl

/-- Claim C5: `approve` on an existing draft in PENDING or FAILED returns
true, sets status APPROVED and sets `reviewed_at`; from any other status it
returns false and leaves the store unchanged.  `reject` succeeds (status
REJECTED, `reviewed_at` set) only from PENDING, returning false and leaving
the store unchanged from every other status. -/
theorem approve_reject_guarded (now id ns : String) (notes : Option String)
    (rows : List DraftRow) (d : Draft) (hget : getDraft rows id = some d) :
    (d.status = DraftStatus.pending ∨ d.status = DraftStatus.failed →
      (approveDraft now id notes rows).1 = true
      ∧ (getDraft (approveDraft now id notes rows).2 id).map Draft.status
          = some DraftStatus.approved
      ∧ (getDraft (approveDraft now id notes rows).2 id).map Draft.reviewed_at
          = some (some now))
    ∧ (¬(d.status = DraftStatus.pending ∨ d.status = DraftStatus.failed) →
        approveDraft now id notes rows = (false, rows))
    ∧ (d.status = DraftStatus.pending →
        (rejectDraft now id ns rows).1 = true
        ∧ (getDraft (rejectDraft now id ns rows).2 id).map Draft.status
            = some DraftStatus.rejected
        ∧ (getDraft (rejectDraft now id ns rows).2 id).map Draft.reviewed_at
            = some (some now))
    ∧ (¬(d.status = DraftStatus.pending) → rejectDraft now id ns rows = (false, rows)) := by
  obtain ⟨r0, hr0, hd⟩ := getDraft_some_parts rows id d hget
  have hp := (fromDbRow_parts r0 d hd).1
  refine ⟨?_, ?_, ?_, ?_⟩
  · intro hst
    unfold approveDraft
    simp only [hget]
    rw [if_pos hst]
    refine ⟨rfl, ?_, ?_⟩ <;>
      · show (getDraft (dbUpdateById (approvePatch now notes) id rows) id).map _ = _
        rw [getDraft_dbUpdateById (approvePatch now notes) (fun r => rfl), hr0]
        simp [Draft.fromDbRow, approvePatch, hp, DraftStatus.ofValue_status_value]
  · intro hst
    unfold approveDraft
    simp only [hget]
    rw [if_neg hst]
  · intro hst
    unfold rejectDraft
    simp only [hget]
    rw [if_pos hst]
    refine ⟨rfl, ?_, ?_⟩ <;>
      · show (getDraft (dbUpdateById (rejectPatch now ns) id rows) id).map _ = _
        rw [getDraft_dbUpdateById (rejectPatch now ns) (fun r => rfl), hr0]
        simp [Draft.fromDbRow, rejectPatch, hp, DraftStatus.ofValue_status_value]
  · intro hst
    unfold rejectDraft
    simp only [hget]
    rw [if_neg hst]

/-- Witness for C5 at a concrete PENDING draft. -/
theorem approve_reject_guarded_witness :
    (approveDraft "t" "p1" none [cexPendingRow]).1 = true
    ∧ (getDraft (approveDraft "t" "p1" none [cexPendingRow]).2 "p1").map Draft.status
        = some DraftStatus.approved
    ∧ (getDraft (approveDraft "t" "p1" none [cexPendingRow]).2 "p1").map Draft.reviewed_at
        = some (some "t")
    ∧ (rejectDraft "t" "p1" "meh" [cexPendingRow]).1 = true := by
  have h := approve_reject_guarded "t" "p1" "meh" none [cexPendingRow]
    cexPendingDraft rfl
  exact ⟨(h.1 (Or.inl rfl)).1, (h.1 (Or.inl rfl)).2.1, (h.1 (Or.inl rfl)).2.2,
    (h.2.2.1 rfl).1⟩

/-- Claim C6: for every existing draft — whatever its prior status, REJECTED
included — `update_content` returns true, stores the new content and resets
the status to PENDING; and `regenerate`, which writes through
`update_content` and re-fetches, returns a draft whose status is PENDING. -/
theorem update_content_resets_pending (llm : String → String → GenerationResult)
    (buildSys : Platform → String → String)
    (buildRegen : String → String → String → String)
    (id c newTone : String) (ht : Option (List String))
    (rows : List DraftRow) (d : Draft) (hget : getDraft rows id = some d) :
    (updateContent id c ht rows).1 = true
    ∧ (getDraft (updateContent id c ht rows).2 id).map Draft.status
        = some DraftStatus.pending
    ∧ (getDraft (updateContent id c ht rows).2 id).map Draft.content = some c
    ∧ ((regenerate llm buildSys buildRegen id newTone rows).1).map Draft.status
        = some DraftStatus.pending := by
  obtain ⟨r0, hr0, hd⟩ := getDraft_some_parts rows id d hget
  have hp := (fromDbRow_parts r0 d hd).1
  have key : ∀ (c2 : String) (ht2 : Option (List String)),
      (getDraft (updateContent id c2 ht2 rows).2 id).map Draft.status
          = some DraftStatus.pending
      ∧ (getDraft (updateContent id c2 ht2 rows).2 id).map Draft.content = some c2 := by
    intro c2 ht2
    constructor <;>
      · show (getDraft (dbUpdateById (updateContentRow c2 ht2) id rows) id).map _ = _
        rw [getDraft_dbUpdateById (updateContentRow c2 ht2) (fun r => rfl), hr0]
        simp [Draft.fromDbRow, updateContentRow, hp, DraftStatus.ofValue_status_value]
  refine ⟨rfl, (key c ht).1, (key c ht).2, ?_⟩
  unfold regenerate
  simp only [hget]
  exact (key _ _).1

/-- Witness for C6 at a concrete REJECTED draft. -/
theorem update_content_resets_pending_witness :
    (getDraft (updateContent "r1" "new content" none [cexRejectedRow]).2 "r1").map
        Draft.status = some DraftStatus.pending
    ∧ ((regenerate c6Llm c6BuildSys c6BuildRegen "r1" "casual" [cexRejectedRow]).1).map
        Draft.status = some DraftStatus.pending := by
  have h := update_content_resets_pending c6Llm c6BuildSys c6BuildRegen "r1"
    "new content" "casual" none [cexRejectedRow] cexRejectedDraft rfl
  exact ⟨h.2.1, h.2.2.2⟩

/-- Claim C7: for every draft, `display_content` equals the content followed
(space-joined) by exactly those hashtags that are not already present as
case-insensitive substrings of the content; with none missing (or no hashtags
at all) it is the content unchanged.  (`displayContent` is a pure function of
the draft, so reading it modifies no stored field.) -/
theorem display_content_spec (d : Draft) :
    d.displayContent = displayContentSpec d := by
  unfold Draft.displayContent displayContentSpec
  rcases hht : d.hashtags with _ | ⟨t, ts⟩
  · simp [hht]
  · simp only [hht, List.isEmpty_cons, Bool.not_false, if_true]
    rcases hm : (t :: ts).filter
        (fun t => !charsContain (lowerChars d.content) (lowerChars t)) with _ | ⟨m, ms⟩
    · simp [hm]
    · simp [hm]

/-- Claim C8: `is_safe` is true iff the issues list is empty (for every
checker configuration and input — the checker is a total function, so it
never raises); `check "invest now for guaranteed returns"` reports the
financial-advice issue; `check "this drug cured cancer"` reports the
medical-claim issue; and on `"normal clean sentence"` a checker whose
profanity lexicon does not flag that sentence and whose blocked-word list is
empty returns safe with zero issues. -/
theorem safety_check_spec (cs : ContentSafety) (content : String)
    (hprof : cs.containsProfanity "normal clean sentence" = false)
    (hwords : cs.blocked_words = []) :
    ((cs.check content).is_safe = true ↔ (cs.check content).issues = [])
    ∧ "May contain financial advice language"
        ∈ (cs.check "invest now for guaranteed returns").issues
    ∧ "May contain medical claims" ∈ (cs.check "this drug cured cancer").issues
    ∧ cs.check "normal clean sentence" = { is_safe := true, issues := [] } := by
  have hc1 : checkCompliance "invest now for guaranteed returns"
      = ["May contain financial advice language"] := by rfl
  have hc2 : checkCompliance "this drug cured cancer"
      = ["May contain medical claims"] := by rfl
  have hc3 : checkCompliance "normal clean sentence" = [] := by rfl
  refine ⟨?_, ?_, ?_, ?_⟩
  · simp [ContentSafety.check, List.isEmpty_iff]
  · simp [ContentSafety.check, hwords, hc1]
  · simp [ContentSafety.check, hwords, hc2]
  · simp [ContentSafety.check, hprof, hwords, hc3]

/-- Witness for C8 at a concrete checker (empty blocked-word list, profanity
lexicon flagging nothing). -/
theorem safety_check_spec_witness :
    (((ContentSafety.init [] (fun _ => false)).check "anything").is_safe = true
      ↔ ((ContentSafety.init [] (fun _ => false)).check "anything").issues = [])
    ∧ (ContentSafety.init [] (fun _ => false)).check "normal clean sentence"
        = { is_safe := true, issues := [] } := by
  have h := safety_check_spec (ContentSafety.init [] (fun _ => false)) "anything" rfl rfl
  exact ⟨h.1, h.2.2.2⟩

/-- Claim C9: round-trip — `from_db_row` applied to the row produced by
`to_db_dict` succeeds and reproduces the draft's `id`, `platform`, `content`,
`hashtags` and `status`. -/
theorem draft_db_roundtrip (d : Draft) :
    ∃ d2 : Draft, Draft.fromDbRow d.toDbDict = some d2
      ∧ d2.id = d.id ∧ d2.platform = d.platform ∧ d2.content = d.content
      ∧ d2.hashtags = d.hashtags ∧ d2.status = d.status := by
  simp only [Draft.fromDbRow, Draft.toDbDict, Platform.ofValue_platform_value,
    DraftStatus.ofValue_status_value]
  refine ⟨_, rfl, rfl, rfl, rfl, ?_, rfl⟩
  show (if d.hashtags.isEmpty then none else some d.hashtags).getD [] = d.hashtags
  rcases h : d.hashtags with _ | ⟨t, ts⟩
  · simp
  · simp

/-- Claim C10 (frame property): `update_content` rewrites each row with the
matching id using only the column assignments `content`, `status := pending`,
and `hashtags` (the latter only when a hashtag list was supplied — with
`none` the column keeps its stored value), leaves every other row untouched,
and preserves every other column — `reviewer_notes`, `reviewed_at`,
`posted_at`, `post_url`, `created_at`, `tone`, `source_reference`,
`error_message`, `image_path` and the generation provenance columns — so a
rejected draft re-opened by regeneration keeps its previous `reviewer_notes`
and `reviewed_at`. -/
theorem update_content_frame (id c : String) (ht : Option (List String))
    (rows : List DraftRow) :
    (updateContent id c ht rows).2
      = rows.map (fun r => if r.id = id then updateContentRow c ht r else r)
    ∧ (∀ r : DraftRow, (updateContentRow c ht r).id = r.id
        ∧ (updateContentRow c ht r).tone = r.tone
        ∧ (updateContentRow c ht r).source_reference = r.source_reference
        ∧ (updateContentRow c ht r).image_path = r.image_path
        ∧ (updateContentRow c ht r).created_at = r.created_at
        ∧ (updateContentRow c ht r).reviewed_at = r.reviewed_at
        ∧ (updateContentRow c ht r).posted_at = r.posted_at
        ∧ (updateContentRow c ht r).post_url = r.post_url
        ∧ (updateContentRow c ht r).reviewer_notes = r.reviewer_notes
        ∧ (updateContentRow c ht r).error_message = r.error_message
        ∧ (updateContentRow c ht r).generation_model = r.generation_model
        ∧ (updateContentRow c ht r).generation_tokens = r.generation_tokens
        ∧ (updateContentRow c ht r).generation_cost = r.generation_cost)
    ∧ (∀ r : DraftRow, (updateContentRow c none r).hashtags = r.hashtags)
    ∧ (∀ r : DraftRow, (updateContentRow c ht r).content = c
        ∧ (updateContentRow c ht r).status = DraftStatus.pending.value) :=
  ⟨rfl,
   fun _ => ⟨rfl, rfl, rfl, rfl, rfl, rfl, rfl, rfl, rfl, rfl, rfl, rfl, rfl⟩,
   fun _ => rfl,
   fun _ => ⟨rfl, rfl⟩⟩

end SocialPlugin
